import Mathlib

/-!
Shallow embedding of the battery-tester serial framing protocol and its
transfer state machine (deviceprotocol.cpp / devicemanager.cpp).

Bytes are modelled as `Nat` values; every `static_cast<quint8>` in the C++
source appears as `% 256`, and every `quint16` cast as `% 65536`.  Streams
are modelled as the list of packets (header plus delivered payload bytes)
that the reads of one protocol run observe; exhaustion of that list models
a read timeout.
-/

set_option maxRecDepth 10000

namespace BatteryTester

/-- Protocol constants from deviceprotocol.h. -/
def USB_PROTO_MAGIC : Nat := 0xAA55

def USB_PROTO_CMD_HANDSHAKE : Nat := 0x01

def USB_PROTO_CMD_FILE_LIST : Nat := 0x02

def USB_PROTO_CMD_FILE_DATA : Nat := 0x03

def USB_PROTO_CMD_ACK : Nat := 0x05

def USB_PROTO_CMD_NACK : Nat := 0x06

def USB_CHUNK_SIZE : Nat := 512

/-- The parsed 6-byte packet header (struct PacketHeader). -/
structure PacketHeader where
  magic : Nat
  command : Nat
  length : Nat
  checksum : Nat
deriving DecidableEq, Repr

/-- PacketHeader::isValid : magic must equal 0xAA55. -/
def PacketHeader.isValid (h : PacketHeader) : Bool :=
  h.magic == USB_PROTO_MAGIC

/-- DeviceProtocol::calculateChecksum : XOR-fold of the payload bytes,
each cast to quint8, starting from 0. -/
def calculateChecksum (data : List Nat) : Nat :=
  data.foldl (fun c b => c ^^^ (b % 256)) 0

/-- The packet layout built by DeviceProtocol::sendConfigFile (and by
sendAck/sendNack with empty payload): magic low byte, magic high byte,
command byte, payload length as quint16 little-endian, checksum byte,
then the payload itself. -/
def encodePacket (command : Nat) (payload : List Nat) : List Nat :=
  let length := payload.length % 65536
  [USB_PROTO_MAGIC % 256, (USB_PROTO_MAGIC >>> 8) % 256,
   command % 256,
   length % 256, (length >>> 8) % 256,
   calculateChecksum payload] ++ payload

/-- DeviceProtocol::readPacketHeader field extraction from the 6 header
bytes: little-endian magic and length, quint8 casts on every byte. -/
def parseHeader (bytes : List Nat) : PacketHeader :=
  { magic := bytes.getD 0 0 % 256 ||| ((bytes.getD 1 0 % 256) <<< 8)
  , command := bytes.getD 2 0 % 256
  , length := bytes.getD 3 0 % 256 ||| ((bytes.getD 4 0 % 256) <<< 8)
  , checksum := bytes.getD 5 0 % 256 }

/-- A little-endian quint16 read at offset `i`, as QDataStream performs it:
two quint8 bytes, low first; a read past the end of the buffer yields 0. -/
def readU16 (data : List Nat) (i : Nat) : Nat :=
  if i + 2 ≤ data.length then
    data.getD i 0 % 256 ||| ((data.getD (i + 1) 0 % 256) <<< 8)
  else 0

lemma calculateChecksum_lt (data : List Nat) : calculateChecksum data < 256 := by
  suffices h : ∀ acc, acc < 256 → data.foldl (fun c b => c ^^^ (b % 256)) acc < 256 by
    exact h 0 (by omega)
  induction data with
  | nil => intro acc hacc; simpa [List.foldl] using hacc
  | cons b rest ih =>
    intro acc hacc
    simp only [List.foldl]
    exact ih _ (Nat.xor_lt_two_pow (n := 8) hacc (Nat.mod_lt _ (by omega)))

lemma lor_shift8 (a b : Nat) (ha : a < 256) : a ||| b <<< 8 = a + b * 256 := by
  have h := Nat.mul_add_lt_is_or (i := 8) (b := a) ha b
  rw [Nat.shiftLeft_eq, Nat.lor_comm, mul_comm b (2 ^ 8), ← h]
  ring

lemma le_combine (L : Nat) :
    L % 256 ||| (L >>> 8) <<< 8 = L := by
  have h8 : L >>> 8 = L / 256 := by
    rw [Nat.shiftRight_eq_div_pow]
  rw [h8, lor_shift8 _ _ (Nat.mod_lt _ (by omega))]
  omega

lemma parseHeader_cons (b0 b1 b2 b3 b4 b5 : Nat) (rest : List Nat) :
    parseHeader (b0 :: b1 :: b2 :: b3 :: b4 :: b5 :: rest) =
      ⟨b0 % 256 ||| (b1 % 256) <<< 8, b2 % 256,
       b3 % 256 ||| (b4 % 256) <<< 8, b5 % 256⟩ := rfl

/-- C2: for every command byte and payload, the 6-byte header built by the
sender (magic 0xAA55 little-endian, command, payload length as 16-bit
little-endian, checksum byte) parses back to the same magic, command,
length and checksum values; the checksum byte is the XOR-fold of the
payload bytes (0 for an empty payload); and the bytes after the header are
the payload itself. -/
theorem header_roundtrip (command : Nat) (payload : List Nat)
    (hc : command < 256) (hl : payload.length < 65536) :
    parseHeader (encodePacket command payload) =
      ⟨USB_PROTO_MAGIC, command, payload.length, calculateChecksum payload⟩
      ∧ (encodePacket command payload).drop 6 = payload
      ∧ calculateChecksum [] = 0 := by
  have henc : encodePacket command payload =
      (USB_PROTO_MAGIC % 256) :: ((USB_PROTO_MAGIC >>> 8) % 256) ::
      (command % 256) :: ((payload.length % 65536) % 256) ::
      (((payload.length % 65536) >>> 8) % 256) ::
      calculateChecksum payload :: payload := rfl
  refine ⟨?_, by rw [henc]; rfl, rfl⟩
  have hlen : payload.length % 65536 = payload.length := Nat.mod_eq_of_lt hl
  have hchk := calculateChecksum_lt payload
  have hs : payload.length >>> 8 = payload.length / 256 := by
    rw [Nat.shiftRight_eq_div_pow]
  rw [henc, parseHeader_cons, hlen, PacketHeader.mk.injEq]
  refine ⟨rfl, by omega, ?_, Nat.mod_eq_of_lt hchk⟩
  rw [lor_shift8 _ _ (by omega), hs]
  omega

/-- Witness: header_roundtrip at command 3, payload [1, 2, 3]. -/
theorem header_roundtrip_witness :
    parseHeader (encodePacket 3 [1, 2, 3]) =
      ⟨USB_PROTO_MAGIC, 3, 3, calculateChecksum [1, 2, 3]⟩
    ∧ (encodePacket 3 [1, 2, 3]).drop 6 = [1, 2, 3]
    ∧ calculateChecksum [] = 0 :=
  header_roundtrip 3 [1, 2, 3] (by decide) (by decide)

/-- An ACK or NACK control packet sent back to the device
(DeviceProtocol::sendAck / sendNack). -/
inductive Ctl where
  | ack : Ctl
  | nack : Ctl
deriving DecidableEq, Repr

/-- One packet as observed by a receive step: the header that
readPacketHeader parsed and the payload bytes that readData delivered
(which may be shorter than the announced length on a timeout). -/
structure InPacket where
  header : PacketHeader
  data : List Nat
deriving DecidableEq, Repr

/-- Result of the chunk-receive loop of DeviceProtocol::receiveFile:
the accumulated file bytes on success (`none` on failure), the emitted
progress percentages, and the control packets sent. -/
structure ChunkLoopOut where
  result : Option (List Nat)
  progress : List Nat
  ctl : List Ctl
deriving DecidableEq, Repr

/-- The chunk-receive loop of DeviceProtocol::receiveFile (the
`while (fileData.size() < fileSize)` loop).  Each iteration reads one
packet; an exhausted input models a header-read timeout, which yields the
zeroed (invalid) header and hence a NACK and failure.  A packet must be a
valid FILE_DATA frame with full-length, checksum-correct payload; its
first two little-endian u16 fields are the chunk number and chunk size;
the chunk number must equal the running expected index or the whole
receive fails with a NACK.  On acceptance the data bytes
(payload bytes 4 onward, at most chunkSize of them, as QByteArray::mid
clamps) are appended, an ACK is sent, and progress
(accumulated*100/fileSize, truncated) is emitted. -/
def receiveChunks (fileSize : Nat) (input : List InPacket)
    (chunkNumber : Nat) (fileData : List Nat) : ChunkLoopOut :=
  if fileData.length < fileSize then
    match input with
    | [] => ⟨none, [], [Ctl.nack]⟩
    | pkt :: rest =>
      if ¬(pkt.header.isValid && pkt.header.command == USB_PROTO_CMD_FILE_DATA) then
        ⟨none, [], [Ctl.nack]⟩
      else if pkt.data.length ≠ pkt.header.length then
        ⟨none, [], [Ctl.nack]⟩
      else if calculateChecksum pkt.data ≠ pkt.header.checksum then
        ⟨none, [], [Ctl.nack]⟩
      else
        let recvChunkNum := readU16 pkt.data 0
        let chunkSize := readU16 pkt.data 2
        if recvChunkNum ≠ chunkNumber then
          ⟨none, [], [Ctl.nack]⟩
        else
          let chunkData := (pkt.data.drop 4).take chunkSize
          let fileData2 := fileData ++ chunkData
          let progress := fileData2.length * 100 / fileSize
          let r := receiveChunks fileSize rest (chunkNumber + 1) fileData2
          ⟨r.result, progress :: r.progress, Ctl.ack :: r.ctl⟩
  else ⟨some fileData, [], []⟩

/-- C1: during a chunked file receive, a checksum-valid FILE_DATA chunk whose
chunkNumber field differs from the expected running index makes receiveFile
send a NACK and fail immediately: the outcome is failure with a single NACK
and no progress event, independent of any further input (no skip, no reorder,
no acceptance, no retry). -/
theorem chunk_number_mismatch_fails (fileSize chunkNumber : Nat)
    (fileData : List Nat) (pkt : InPacket) (rest : List InPacket)
    (hsz : fileData.length < fileSize)
    (hv : pkt.header.isValid = true)
    (hcmd : pkt.header.command = USB_PROTO_CMD_FILE_DATA)
    (hlen : pkt.data.length = pkt.header.length)
    (hchk : calculateChecksum pkt.data = pkt.header.checksum)
    (hmm : readU16 pkt.data 0 ≠ chunkNumber) :
    receiveChunks fileSize (pkt :: rest) chunkNumber fileData =
      ⟨none, [], [Ctl.nack]⟩ := by
  rw [receiveChunks.eq_def]
  simp [hsz, hv, hcmd, hlen, hchk, hmm]

/-- Witness: chunk_number_mismatch_fails on a concrete chunk numbered 1 when
chunk 0 is expected; the pending second packet is never consumed. -/
theorem chunk_number_mismatch_fails_witness :
    receiveChunks 10
      [⟨⟨0xAA55, 3, 5, 7⟩, [1, 0, 1, 0, 7]⟩,
       ⟨⟨0xAA55, 3, 5, 6⟩, [0, 0, 1, 0, 7]⟩] 0 [] = ⟨none, [], [Ctl.nack]⟩ :=
  chunk_number_mismatch_fails 10 0 [] ⟨⟨0xAA55, 3, 5, 7⟩, [1, 0, 1, 0, 7]⟩
    [⟨⟨0xAA55, 3, 5, 6⟩, [0, 0, 1, 0, 7]⟩]
    (by decide) (by decide) (by decide) (by decide) (by decide) (by decide)

/-- The chunk-send loop of DeviceProtocol::sendConfigFile
(the `while (totalSent < fileSize)` loop).  Each iteration sends a chunk of
`min(USB_CHUNK_SIZE, fileSize - totalSent)` bytes; `acks` records, per
chunk, whether the write completed and a valid ACK header arrived (any
write failure, timeout, invalid or non-ACK header is `false` and aborts).
After an acknowledged chunk, totalSent advances and progress
(totalSent*100/fileSize, truncated) is emitted.  Returns overall success
and the emitted progress values. -/
def sendChunks (fileSize : Nat) (acks : List Bool) (totalSent : Nat) :
    Bool × List Nat :=
  if totalSent < fileSize then
    match acks with
    | [] => (false, [])
    | ackOk :: rest =>
      if ¬ackOk then (false, [])
      else
        let chunkSize := min USB_CHUNK_SIZE (fileSize - totalSent)
        let totalSent2 := totalSent + chunkSize
        let progress := totalSent2 * 100 / fileSize
        let r := sendChunks fileSize rest totalSent2
        (r.1, progress :: r.2)
  else (true, [])

/-- The accumulated byte counts of the receive loop of
DeviceProtocol::receiveFile, one entry per accepted chunk: the value of
fileData.size() at the moment each progress event is emitted.  The
branch structure mirrors receiveChunks exactly. -/
def receiveAccums (fileSize : Nat) (input : List InPacket)
    (chunkNumber : Nat) (fileData : List Nat) : List Nat :=
  if fileData.length < fileSize then
    match input with
    | [] => []
    | pkt :: rest =>
      if ¬(pkt.header.isValid && pkt.header.command == USB_PROTO_CMD_FILE_DATA) then
        []
      else if pkt.data.length ≠ pkt.header.length then
        []
      else if calculateChecksum pkt.data ≠ pkt.header.checksum then
        []
      else
        let recvChunkNum := readU16 pkt.data 0
        let chunkSize := readU16 pkt.data 2
        if recvChunkNum ≠ chunkNumber then
          []
        else
          let chunkData := (pkt.data.drop 4).take chunkSize
          let fileData2 := fileData ++ chunkData
          fileData2.length :: receiveAccums fileSize rest (chunkNumber + 1) fileData2
  else []

lemma receiveChunks_progress_eq (fileSize : Nat) (input : List InPacket) :
    ∀ chunkNumber fileData,
      (receiveChunks fileSize input chunkNumber fileData).progress =
        (receiveAccums fileSize input chunkNumber fileData).map
          (fun a => a * 100 / fileSize) := by
  induction input with
  | nil =>
    intro n fd
    rw [receiveChunks.eq_def, receiveAccums.eq_def]
    by_cases hsz : fd.length < fileSize <;> simp [hsz]
  | cons pkt rest ih =>
    intro n fd
    rw [receiveChunks.eq_def, receiveAccums.eq_def]
    by_cases hsz : fd.length < fileSize
    · simp only [hsz, if_true]
      split_ifs with h1 h2 h3 h4 <;> simp [ih]
    · simp [hsz]

lemma mul_hundred_div_le (a fs : Nat) (ha : a ≤ fs) : a * 100 / fs ≤ 100 := by
  rcases Nat.eq_zero_or_pos fs with h0 | h0
  · subst h0
    simp
  · calc a * 100 / fs ≤ fs * 100 / fs :=
        Nat.div_le_div_right (Nat.mul_le_mul_right 100 ha)
    _ = 100 := Nat.mul_div_cancel_left 100 h0

lemma receiveChunks_progress_mem (fileSize : Nat) (input : List InPacket) :
    ∀ chunkNumber fileData,
      ∀ p ∈ (receiveChunks fileSize input chunkNumber fileData).progress,
        ∃ a, p = a * 100 / fileSize ∧ (a ≤ fileSize → p ≤ 100) := by
  induction input with
  | nil =>
    intro n fd p hp
    rw [receiveChunks.eq_def] at hp
    by_cases hsz : fd.length < fileSize <;> simp [hsz] at hp
  | cons pkt rest ih =>
    intro n fd p hp
    rw [receiveChunks.eq_def] at hp
    by_cases hsz : fd.length < fileSize
    · simp only [hsz, if_true, if_pos] at hp
      split_ifs at hp with h1 h2 h3 h4 <;> simp at hp
      rcases hp with hp | hp
      · refine ⟨fd.length + min (readU16 pkt.data 2) (pkt.data.length - 4),
          hp, ?_⟩
        intro ha
        subst hp
        have hfs : 0 < fileSize := Nat.lt_of_le_of_lt (Nat.zero_le _) hsz
        calc (fd.length + min (readU16 pkt.data 2) (pkt.data.length - 4)) * 100 / fileSize
            ≤ fileSize * 100 / fileSize :=
              Nat.div_le_div_right (Nat.mul_le_mul_right 100 ha)
          _ = 100 := Nat.mul_div_cancel_left 100 hfs
      · exact ih _ _ p hp
    · simp [hsz] at hp

lemma sendChunks_progress_le (fileSize : Nat) (acks : List Bool) :
    ∀ totalSent, totalSent ≤ fileSize →
      ∀ p ∈ (sendChunks fileSize acks totalSent).2, p ≤ 100 := by
  induction acks with
  | nil =>
    intro t ht p hp
    rw [sendChunks.eq_def] at hp
    by_cases hlt : t < fileSize <;> simp [hlt] at hp
  | cons ackOk rest ih =>
    intro t ht p hp
    rw [sendChunks.eq_def] at hp
    by_cases hlt : t < fileSize
    · simp only [hlt, if_true] at hp
      split_ifs at hp with h1 <;> simp at hp
      have hfs : 0 < fileSize := Nat.lt_of_le_of_lt (Nat.zero_le _) hlt
      have ht2 : t + min USB_CHUNK_SIZE (fileSize - t) ≤ fileSize := by
        have := Nat.min_le_right USB_CHUNK_SIZE (fileSize - t)
        omega
      rcases hp with hp | hp
      · subst hp
        calc (t + min USB_CHUNK_SIZE (fileSize - t)) * 100 / fileSize
            ≤ fileSize * 100 / fileSize :=
              Nat.div_le_div_right (Nat.mul_le_mul_right 100 ht2)
          _ = 100 := Nat.mul_div_cancel_left 100 hfs
      · exact ih _ ht2 p hp
    · simp [hlt] at hp

/-- C3 counterexample: a checksum-valid FILE_DATA chunk of 150 data bytes
against a declared file size of 100 is accepted (QByteArray::mid clamps
nothing here) and the emitted progress value is 150, above 100. -/
theorem progress_out_of_range_counterexample :
    150 ∈ (receiveChunks 100
      [⟨⟨0xAA55, 3, 154, 150⟩, [0, 0, 150, 0] ++ List.replicate 150 0⟩]
      0 []).progress ∧ ¬(150 ≤ 100) := ⟨by decide, by decide⟩

/-- C3 amended: every progress event of the chunked config send lies between
0 and 100 inclusive (0 is automatic for Nat); the progress events of the
chunked file receive are exactly the run's accumulated byte counts (as
receiveAccums computes them), each mapped through accumulated*100/fileSize
truncated, and the event at any index whose accumulated byte count does not
exceed the declared file size is at most 100 — an oversized final chunk,
which pushes the accumulation past the declared size, can exceed 100 (see
the counterexample). -/
theorem progress_in_range (fileSize totalSent chunkNumber i : Nat)
    (acks : List Bool) (input : List InPacket) (fileData : List Nat)
    (ht : totalSent ≤ fileSize)
    (ha : (receiveAccums fileSize input chunkNumber fileData).getD i 0 ≤ fileSize) :
    (∀ p ∈ (sendChunks fileSize acks totalSent).2, p ≤ 100)
    ∧ (receiveChunks fileSize input chunkNumber fileData).progress =
        (receiveAccums fileSize input chunkNumber fileData).map
          (fun a => a * 100 / fileSize)
    ∧ (receiveChunks fileSize input chunkNumber fileData).progress.getD i 0 ≤ 100 := by
  refine ⟨sendChunks_progress_le fileSize acks totalSent ht,
    receiveChunks_progress_eq fileSize input chunkNumber fileData, ?_⟩
  rw [receiveChunks_progress_eq fileSize input chunkNumber fileData,
    List.getD_eq_getElem?_getD, List.getElem?_map]
  cases h : (receiveAccums fileSize input chunkNumber fileData)[i]? with
  | none => simp
  | some a =>
    have haa : (receiveAccums fileSize input chunkNumber fileData).getD i 0 = a := by
      rw [List.getD_eq_getElem?_getD, h]
      rfl
    simpa using mul_hundred_div_le a fileSize (haa ▸ ha)

/-- Witness: progress_in_range on a 1000-byte send acknowledged twice
(whose first progress event is 51) and a 2-byte receive delivering 1 byte,
whose single progress event 50 equals its accumulated count 1 mapped
through 1*100/2 and stays at most 100. -/
theorem progress_in_range_witness :
    51 ≤ 100
    ∧ (receiveChunks 2 [⟨⟨0xAA55, 3, 5, 8⟩, [0, 0, 1, 0, 9]⟩] 0 []).progress =
        (receiveAccums 2 [⟨⟨0xAA55, 3, 5, 8⟩, [0, 0, 1, 0, 9]⟩] 0 []).map
          (fun a => a * 100 / 2)
    ∧ (receiveChunks 2 [⟨⟨0xAA55, 3, 5, 8⟩, [0, 0, 1, 0, 9]⟩]
        0 []).progress.getD 0 0 ≤ 100 :=
  ⟨(progress_in_range 1000 0 0 0 [true, true] [] [] (by decide) (by decide)).1
      51 (by decide),
   (progress_in_range 2 0 0 0 [] [⟨⟨0xAA55, 3, 5, 8⟩, [0, 0, 1, 0, 9]⟩] []
      (by decide) (by decide)).2.1,
   (progress_in_range 2 0 0 0 [] [⟨⟨0xAA55, 3, 5, 8⟩, [0, 0, 1, 0, 9]⟩] []
      (by decide) (by decide)).2.2⟩

/-- C8: receiving a file of declared size 1000 in two checksum-valid chunks
of 512 then 488 data bytes numbered 0 and 1 succeeds with exactly 1000
accumulated bytes, emits progress 51 then 100, and ACKs both chunks; and in
general every emitted progress value equals 100 times the accumulated byte
count divided by the declared size, truncated to an integer. -/
theorem receive_two_chunk_scenario :
    receiveChunks 1000
      [⟨⟨0xAA55, 3, 516, 2⟩, [0, 0, 0, 2] ++ List.replicate 512 0⟩,
       ⟨⟨0xAA55, 3, 492, 232⟩, [1, 0, 232, 1] ++ List.replicate 488 0⟩] 0 [] =
      ⟨some (List.replicate 1000 0), [51, 100], [Ctl.ack, Ctl.ack]⟩
    ∧ (List.replicate 1000 (0 : Nat)).length = 1000
    ∧ ∀ fileSize input chunkNumber fileData,
        ∀ p ∈ (receiveChunks fileSize input chunkNumber fileData).progress,
          ∃ a, p = a * 100 / fileSize :=
  ⟨by decide, by decide,
   fun fileSize input chunkNumber fileData p hp =>
     (receiveChunks_progress_mem fileSize input chunkNumber fileData p hp).imp
       (fun _ h => h.1)⟩

/-- Witness: receive_two_chunk_scenario's general clause at a 4-byte file
receiving one 2-byte chunk, whose progress event is 50 = 2*100/4. -/
theorem receive_two_chunk_scenario_witness :
    ∃ a, 50 = a * 100 / 4 :=
  receive_two_chunk_scenario.2.2 4
    [⟨⟨0xAA55, 3, 6, 2⟩, [0, 0, 2, 0, 5, 5]⟩] 0 [] 50 (by decide)

/-- UTF-8 bytes of an ASCII string (for ASCII, the UTF-8 encoding is the
character codes themselves). -/
def asciiBytes (s : String) : List Nat :=
  s.data.map Char.toNat

/-- QByteArray::indexOf-style last index of a byte (QString::lastIndexOf). -/
def lastIndexOf (x : Nat) : List Nat → Option Nat
  | [] => none
  | b :: rest =>
    match lastIndexOf x rest with
    | some i => some (i + 1)
    | none => if b = x then some 0 else none

/-- Truncation at the first null byte: QByteArray::indexOf of 0 followed by
QByteArray::left; when no null is present the bytes are kept whole. -/
def truncAtNull (l : List Nat) : List Nat :=
  l.takeWhile (fun b => b ≠ 0)

/-- Basename extraction in receiveFileList/receiveFile: everything after
the last slash (byte 47), or the whole name when there is no slash. -/
def basenameOf (l : List Nat) : List Nat :=
  match lastIndexOf 47 l with
  | some i => l.drop (i + 1)
  | none => l

/-- Decoding of one 64-byte filename field: truncate at the first null,
then strip the path prefix up to the last slash. -/
def decodeName (field : List Nat) : List Nat :=
  basenameOf (truncAtNull field)

/-- The filename loop of DeviceProtocol::receiveFileList: for each
`i < fileCount`, decode the 64-byte field at payload offset `1 + i*64`
(QByteArray::mid clamps a short final field). -/
def fileListNames (data : List Nat) (count : Nat) : List (List Nat) :=
  (List.range count).map (fun i => decodeName ((data.drop (1 + i * 64)).take 64))

/-- Outcome of DeviceProtocol::receiveFileList: `failed` covers every
NACK-and-return-empty path (wrong command, invalid magic, short payload,
checksum mismatch); `crash` marks the unguarded `data[0]` access reached
with an empty payload (undefined behaviour in the C++ source); `ok` carries
the decoded names in payload order. -/
inductive FileListResult where
  | failed : FileListResult
  | crash : FileListResult
  | ok : List (List Nat) → FileListResult
deriving DecidableEq, Repr

/-- DeviceProtocol::receiveFileList on the single packet it reads. -/
def receiveFileList (pkt : InPacket) : FileListResult :=
  if ¬(pkt.header.isValid && pkt.header.command == USB_PROTO_CMD_FILE_LIST) then
    FileListResult.failed
  else if pkt.data.length ≠ pkt.header.length then
    FileListResult.failed
  else if calculateChecksum pkt.data ≠ pkt.header.checksum then
    FileListResult.failed
  else
    match pkt.data.head? with
    | none => FileListResult.crash
    | some b => FileListResult.ok (fileListNames pkt.data (b % 256))

lemma flatten_slice (fields : List (List Nat)) :
    ∀ i, (∀ f ∈ fields, f.length = 64) → i < fields.length →
      ((fields.flatten).drop (i * 64)).take 64 = fields.getD i [] := by
  induction fields with
  | nil => intro i _ hi; exact absurd hi (by simp)
  | cons f rest ih =>
    intro i hall hi
    have hf : f.length = 64 := hall f (List.mem_cons_self f rest)
    match i with
    | 0 =>
      simp only [List.flatten_cons, Nat.zero_mul, List.drop_zero,
        List.getD_cons_zero]
      rw [List.take_append_of_le_length (by omega),
        List.take_of_length_le (le_of_eq hf)]
    | i + 1 =>
      have h1 : (i + 1) * 64 = f.length + i * 64 := by omega
      simp only [List.flatten_cons, h1, List.drop_append, List.getD_cons_succ]
      exact ih i (fun g hg => hall g (List.mem_cons_of_mem f hg))
        (by simp at hi; omega)

lemma map_getD_range (l : List (List Nat)) :
    (List.range l.length).map (fun i => l.getD i []) = l := by
  induction l with
  | nil => rfl
  | cons f rest ih =>
    rw [List.length_cons, List.range_succ_eq_map, List.map_cons, List.map_map]
    have he : ((fun i => (f :: rest).getD i []) ∘ (· + 1)) =
        fun i => rest.getD i [] := by
      funext i
      simp [List.getD_cons_succ]
    rw [List.getD_cons_zero, he, ih]

/-- C7: for every checksum-valid FileList payload made of a count byte
followed by that many 64-byte name fields, receiveFileList returns exactly
the fields' names in payload order, each truncated at the first null byte
and stripped of any path prefix up to and including the last slash. -/
theorem fileList_decodes_fields (fields : List (List Nat))
    (hall : ∀ f ∈ fields, f.length = 64) (hcnt : fields.length ≤ 255) :
    receiveFileList ⟨⟨USB_PROTO_MAGIC, USB_PROTO_CMD_FILE_LIST,
        (fields.length :: fields.flatten).length,
        calculateChecksum (fields.length :: fields.flatten)⟩,
      fields.length :: fields.flatten⟩ =
      FileListResult.ok (fields.map decodeName) := by
  have hmod : fields.length % 256 = fields.length :=
    Nat.mod_eq_of_lt (by omega)
  have hstep : ∀ i ∈ List.range fields.length,
      decodeName (((fields.length :: fields.flatten).drop (1 + i * 64)).take 64)
        = decodeName (fields.getD i []) := by
    intro i hi
    rw [Nat.add_comm 1 (i * 64), List.drop_succ_cons,
      flatten_slice fields i hall (List.mem_range.mp hi)]
  have hnames : fileListNames (fields.length :: fields.flatten) fields.length =
      fields.map decodeName := by
    unfold fileListNames
    rw [List.map_congr_left hstep]
    conv_rhs => rw [← map_getD_range fields]
    rw [List.map_map]
    rfl
  simp [receiveFileList, PacketHeader.isValid, hmod, hnames]

/-- Witness: fileList_decodes_fields on the two null-padded fields
"/sd/log_ch1.csv" and "/sd/log_ch2.csv", which decode to
["log_ch1.csv", "log_ch2.csv"]. -/
theorem fileList_decodes_fields_witness :
    receiveFileList ⟨⟨USB_PROTO_MAGIC, USB_PROTO_CMD_FILE_LIST,
        (([asciiBytes "/sd/log_ch1.csv" ++ List.replicate 49 0,
           asciiBytes "/sd/log_ch2.csv" ++ List.replicate 49 0] :
            List (List Nat)).length ::
          ([asciiBytes "/sd/log_ch1.csv" ++ List.replicate 49 0,
            asciiBytes "/sd/log_ch2.csv" ++ List.replicate 49 0] :
            List (List Nat)).flatten).length,
        calculateChecksum
          (([asciiBytes "/sd/log_ch1.csv" ++ List.replicate 49 0,
             asciiBytes "/sd/log_ch2.csv" ++ List.replicate 49 0] :
              List (List Nat)).length ::
            ([asciiBytes "/sd/log_ch1.csv" ++ List.replicate 49 0,
              asciiBytes "/sd/log_ch2.csv" ++ List.replicate 49 0] :
              List (List Nat)).flatten)⟩,
      ([asciiBytes "/sd/log_ch1.csv" ++ List.replicate 49 0,
        asciiBytes "/sd/log_ch2.csv" ++ List.replicate 49 0] :
         List (List Nat)).length ::
        ([asciiBytes "/sd/log_ch1.csv" ++ List.replicate 49 0,
          asciiBytes "/sd/log_ch2.csv" ++ List.replicate 49 0] :
          List (List Nat)).flatten⟩ =
      FileListResult.ok [asciiBytes "log_ch1.csv", asciiBytes "log_ch2.csv"] := by
  rw [fileList_decodes_fields
    [asciiBytes "/sd/log_ch1.csv" ++ List.replicate 49 0,
     asciiBytes "/sd/log_ch2.csv" ++ List.replicate 49 0]
    (by decide) (by decide)]
  decide

/-- C10: a FileList packet with payload length 0 and checksum 0 passes the
magic, command, payload-length and checksum checks and reaches the
unguarded read of payload byte 0, whose none branch is taken in the total
embedding — receiveFileList has the unstated precondition that the payload
holds at least one byte. -/
theorem fileList_empty_payload_reaches_unguarded_index :
    receiveFileList ⟨⟨0xAA55, 2, 0, 0⟩, []⟩ = FileListResult.crash := by
  decide

/-- One iteration's worth of input to DeviceProtocol::waitForHandshake:
either no data arrived within the 100 ms sub-wait (`tick`), or a header was
read, with the payload bytes that the subsequent read delivered.  The
overall timeout budget running out is modelled by the input list being
exhausted. -/
inductive HsItem where
  | tick : HsItem
  | pkt : PacketHeader → List Nat → HsItem
deriving DecidableEq, Repr

/-- DeviceProtocol::waitForHandshake: loop over the input; ignore ticks and
invalid-magic headers and non-Handshake commands; on a Handshake header,
a short payload or a checksum mismatch sends a NACK and continues waiting;
a checksum match sends an ACK and succeeds.  Exhausting the timeout budget
fails.  Returns overall success and the control packets sent. -/
def waitForHandshake : List HsItem → Bool × List Ctl
  | [] => (false, [])
  | HsItem.tick :: rest => waitForHandshake rest
  | HsItem.pkt hdr data :: rest =>
    if ¬hdr.isValid then waitForHandshake rest
    else if hdr.command == USB_PROTO_CMD_HANDSHAKE then
      if data.length ≠ hdr.length then
        let r := waitForHandshake rest
        (r.1, Ctl.nack :: r.2)
      else if calculateChecksum data ≠ hdr.checksum then
        let r := waitForHandshake rest
        (r.1, Ctl.nack :: r.2)
      else (true, [Ctl.ack])
    else waitForHandshake rest

/-- C4: a Handshake packet whose full-length payload matches the header
checksum makes waitForHandshake send an ACK and succeed at once; a
Handshake packet whose checksum does not match makes it send a NACK and
keep waiting on the remaining input instead of returning; and an exhausted
timeout budget yields failure. -/
theorem handshake_ack_nack (hdr : PacketHeader) (data : List Nat)
    (rest : List HsItem)
    (hv : hdr.isValid = true) (hcmd : hdr.command = USB_PROTO_CMD_HANDSHAKE)
    (hlen : data.length = hdr.length) :
    (calculateChecksum data = hdr.checksum →
      waitForHandshake (HsItem.pkt hdr data :: rest) = (true, [Ctl.ack]))
    ∧ (calculateChecksum data ≠ hdr.checksum →
      waitForHandshake (HsItem.pkt hdr data :: rest) =
        ((waitForHandshake rest).1, Ctl.nack :: (waitForHandshake rest).2))
    ∧ waitForHandshake [] = (false, []) := by
  refine ⟨fun hchk => ?_, fun hchk => ?_, rfl⟩ <;>
    simp [waitForHandshake, hv, hcmd, hlen, hchk]

/-- Witness: handshake_ack_nack on the payload {version=1,
timestamp=1000000} (bytes 1, 0x40, 0x42, 0x0F, 0x00; XOR-fold 12): with
checksum 12 the session ACKs and succeeds; with the checksum flipped to 13
it NACKs and, the remaining budget being empty, fails. -/
theorem handshake_ack_nack_witness :
    waitForHandshake [HsItem.pkt ⟨0xAA55, 1, 5, 12⟩ [1, 0x40, 0x42, 0x0F, 0x00]]
      = (true, [Ctl.ack])
    ∧ waitForHandshake [HsItem.pkt ⟨0xAA55, 1, 5, 13⟩ [1, 0x40, 0x42, 0x0F, 0x00]]
      = (false, [Ctl.nack]) := by
  refine ⟨(handshake_ack_nack ⟨0xAA55, 1, 5, 12⟩ [1, 0x40, 0x42, 0x0F, 0x00] []
    (by decide) (by decide) (by decide)).1 (by decide), ?_⟩
  have h := (handshake_ack_nack ⟨0xAA55, 1, 5, 13⟩ [1, 0x40, 0x42, 0x0F, 0x00] []
    (by decide) (by decide) (by decide)).2.1 (by decide)
  rw [h]
  decide

/-- Outcome of the validation prefix of DeviceManager::sendSettings:
the first error emitted, if any, and whether execution reaches the
transport (the openPort call that follows the last check). -/
structure ValidationOut where
  error : Option String
  transportTouched : Bool
deriving DecidableEq, Repr

/-- The validation prefix of DeviceManager::sendSettings: the chain of
early returns before any transport interaction, with the errorOccurred
message of each branch.  Only when every check passes does control flow
reach openPort. -/
def sendSettingsValidate (portName : String)
    (planIndex current sampleRate duration minTemp maxTemp : Int) :
    ValidationOut :=
  if portName.isEmpty then ⟨some "No port selected", false⟩
  else if planIndex < 1 ∨ planIndex > 4 then ⟨some "Invalid plan index", false⟩
  else if current < 1 ∨ current > 500 then ⟨some "Invalid current value", false⟩
  else if sampleRate < 1 ∨ sampleRate > 1000 then ⟨some "Invalid sample rate", false⟩
  else if duration < 1 ∨ duration > 1000 then ⟨some "Invalid duration", false⟩
  else if minTemp < -40 ∨ minTemp > 85 then ⟨some "Invalid min temperature", false⟩
  else if maxTemp < -40 ∨ maxTemp > 85 then ⟨some "Invalid max temperature", false⟩
  else if minTemp ≥ maxTemp then ⟨some "Min temp must be less than max temp", false⟩
  else ⟨none, true⟩

/-- C5: sendSettings rejects each out-of-range input — planIndex outside
[1,4], current outside [1,500], sampleRate outside [1,1000], duration
outside [1,1000], minTemp or maxTemp outside [-40,85], or minTemp ≥ maxTemp
(equality included) — with its own distinct error message, and in every
such case returns before the transport is touched (the port is never
opened). -/
theorem sendSettings_rejects_out_of_range (portName : String)
    (planIndex current sampleRate duration minTemp maxTemp : Int)
    (hpn : portName.isEmpty = false) :
    ((planIndex < 1 ∨ planIndex > 4) →
      sendSettingsValidate portName planIndex current sampleRate duration
        minTemp maxTemp = ⟨some "Invalid plan index", false⟩)
    ∧ (1 ≤ planIndex → planIndex ≤ 4 → (current < 1 ∨ current > 500) →
      sendSettingsValidate portName planIndex current sampleRate duration
        minTemp maxTemp = ⟨some "Invalid current value", false⟩)
    ∧ (1 ≤ planIndex → planIndex ≤ 4 → 1 ≤ current → current ≤ 500 →
      (sampleRate < 1 ∨ sampleRate > 1000) →
      sendSettingsValidate portName planIndex current sampleRate duration
        minTemp maxTemp = ⟨some "Invalid sample rate", false⟩)
    ∧ (1 ≤ planIndex → planIndex ≤ 4 → 1 ≤ current → current ≤ 500 →
      1 ≤ sampleRate → sampleRate ≤ 1000 → (duration < 1 ∨ duration > 1000) →
      sendSettingsValidate portName planIndex current sampleRate duration
        minTemp maxTemp = ⟨some "Invalid duration", false⟩)
    ∧ (1 ≤ planIndex → planIndex ≤ 4 → 1 ≤ current → current ≤ 500 →
      1 ≤ sampleRate → sampleRate ≤ 1000 → 1 ≤ duration → duration ≤ 1000 →
      (minTemp < -40 ∨ minTemp > 85) →
      sendSettingsValidate portName planIndex current sampleRate duration
        minTemp maxTemp = ⟨some "Invalid min temperature", false⟩)
    ∧ (1 ≤ planIndex → planIndex ≤ 4 → 1 ≤ current → current ≤ 500 →
      1 ≤ sampleRate → sampleRate ≤ 1000 → 1 ≤ duration → duration ≤ 1000 →
      -40 ≤ minTemp → minTemp ≤ 85 → (maxTemp < -40 ∨ maxTemp > 85) →
      sendSettingsValidate portName planIndex current sampleRate duration
        minTemp maxTemp = ⟨some "Invalid max temperature", false⟩)
    ∧ (1 ≤ planIndex → planIndex ≤ 4 → 1 ≤ current → current ≤ 500 →
      1 ≤ sampleRate → sampleRate ≤ 1000 → 1 ≤ duration → duration ≤ 1000 →
      -40 ≤ minTemp → minTemp ≤ 85 → -40 ≤ maxTemp → maxTemp ≤ 85 →
      minTemp ≥ maxTemp →
      sendSettingsValidate portName planIndex current sampleRate duration
        minTemp maxTemp = ⟨some "Min temp must be less than max temp", false⟩)
    ∧ List.Pairwise (fun a b => a ≠ b)
      ["Invalid plan index", "Invalid current value", "Invalid sample rate",
       "Invalid duration", "Invalid min temperature",
       "Invalid max temperature", "Min temp must be less than max temp"] := by
  have hpn2 : ¬(portName.isEmpty = true) := by simp [hpn]
  refine ⟨?_, ?_, ?_, ?_, ?_, ?_, ?_, by decide⟩
  · intro hviol
    unfold sendSettingsValidate
    rw [if_neg hpn2, if_pos hviol]
  · intro h1 h2 hviol
    unfold sendSettingsValidate
    rw [if_neg hpn2, if_neg (by omega), if_pos hviol]
  · intro h1 h2 h3 h4 hviol
    unfold sendSettingsValidate
    rw [if_neg hpn2, if_neg (by omega), if_neg (by omega), if_pos hviol]
  · intro h1 h2 h3 h4 h5 h6 hviol
    unfold sendSettingsValidate
    rw [if_neg hpn2, if_neg (by omega), if_neg (by omega), if_neg (by omega),
      if_pos hviol]
  · intro h1 h2 h3 h4 h5 h6 h7 h8 hviol
    unfold sendSettingsValidate
    rw [if_neg hpn2, if_neg (by omega), if_neg (by omega), if_neg (by omega),
      if_neg (by omega), if_pos hviol]
  · intro h1 h2 h3 h4 h5 h6 h7 h8 h9 h10 hviol
    unfold sendSettingsValidate
    rw [if_neg hpn2, if_neg (by omega), if_neg (by omega), if_neg (by omega),
      if_neg (by omega), if_neg (by omega), if_pos hviol]
  · intro h1 h2 h3 h4 h5 h6 h7 h8 h9 h10 h11 h12 hviol
    unfold sendSettingsValidate
    rw [if_neg hpn2, if_neg (by omega), if_neg (by omega), if_neg (by omega),
      if_neg (by omega), if_neg (by omega), if_neg (by omega), if_pos hviol]

/-- Witness: sendSettings_rejects_out_of_range at the spec's probe values:
planIndex 0 is rejected as an invalid plan index, and equal temperature
bounds (50, 50) are rejected by the min-below-max rule; neither touches the
transport. -/
theorem sendSettings_rejects_out_of_range_witness :
    sendSettingsValidate "portA" 0 250 1 3 (-20) 30 =
      ⟨some "Invalid plan index", false⟩
    ∧ sendSettingsValidate "portA" 2 250 1 3 50 50 =
      ⟨some "Min temp must be less than max temp", false⟩ :=
  ⟨(sendSettings_rejects_out_of_range "portA" 0 250 1 3 (-20) 30
      (by decide)).1 (by omega),
   (sendSettings_rejects_out_of_range "portA" 2 250 1 3 50 50
      (by decide)).2.2.2.2.2.2.1 (by omega) (by omega) (by omega) (by omega)
      (by omega) (by omega) (by omega) (by omega) (by omega) (by omega)
      (by omega) (by omega) (by omega)⟩

/-- The DeviceManager state touched by an operation: the connected flag,
the progress value, and whether the protocol's serial port is open. -/
structure MgrState where
  connected : Bool
  progress : Nat
  portOpen : Bool
deriving DecidableEq, Repr

/-- Result of DeviceManager::cleanupAfterError: the state afterwards and
the errorOccurred event carrying the message. -/
structure CleanupOut where
  state : MgrState
  errorEvent : Option String
deriving DecidableEq, Repr

/-- DeviceManager::cleanupAfterError: close the port if open, clear the
connected flag, reset progress to 0, and emit errorOccurred(message). -/
def cleanupAfterError (msg : String) (s : MgrState) : CleanupOut :=
  let s1 := if s.portOpen then { s with portOpen := false } else s
  ⟨{ s1 with connected := false, progress := 0 }, some msg⟩

/-- Result of a whole receive operation: the state afterwards, the names of
the files that were written to disk (in order), the error event if the
operation failed, and overall success. -/
structure ReceiveOut where
  state : MgrState
  savedFiles : List (List Nat)
  errorEvent : Option String
  success : Bool
deriving DecidableEq, Repr

/-- The per-file loop of DeviceManager::doReceiveOperation (step 3).  Each
list entry pairs a file's name with whether its receiveFile call succeeded
(and hence the file was saved to disk).  On the first failure the loop
calls cleanupAfterError with the 1-based file index and stops — files
already saved stay on disk.  When all files succeed, the port is closed,
the connected flag cleared and progress set to 100 (step 4). -/
def receiveFilesLoop (s : MgrState) (i : Nat) :
    List (List Nat × Bool) → ReceiveOut
  | [] => ⟨{ s with portOpen := false, connected := false, progress := 100 },
      [], none, true⟩
  | (name, ok) :: rest =>
    if ok then
      let r := receiveFilesLoop s (i + 1) rest
      { r with savedFiles := name :: r.savedFiles }
    else
      let c := cleanupAfterError
        ("Failed at file " ++ toString (i + 1) ++
          " - device may have disconnected") s
      ⟨c.state, [], c.errorEvent, false⟩

/-- DeviceManager::doReceiveOperation, parameterised by the outcomes of its
protocol steps: whether the handshake succeeded, the received file list,
and the per-file receive outcomes (zipped with the names). -/
def doReceiveOperation (s : MgrState) (hsOk : Bool)
    (fileList : List (List Nat)) (fileResults : List Bool) : ReceiveOut :=
  if ¬hsOk then
    let c := cleanupAfterError "Timeout - no response from device" s
    ⟨c.state, [], c.errorEvent, false⟩
  else if fileList.isEmpty then
    let c := cleanupAfterError "No files to receive or device disconnected" s
    ⟨c.state, [], c.errorEvent, false⟩
  else receiveFilesLoop s 0 (fileList.zip fileResults)

/-- Result of the upload operation DeviceManager::sendSettings after
validation: final state, error event, success. -/
structure UploadOut where
  state : MgrState
  errorEvent : Option String
  success : Bool
deriving DecidableEq, Repr

/-- DeviceManager::sendSettings as an operation: validation first (a
validation error is reported and nothing else happens), then progress is
reset and the port opened (failure → cleanupAfterError), then the config
file is sent (failure → cleanupAfterError), then the port is closed and
progress set to 100.  `openOk` and `sendOk` are the outcomes of the two
transport steps. -/
def sendSettingsOp (s : MgrState) (portName : String)
    (planIndex current sampleRate duration minTemp maxTemp : Int)
    (openOk sendOk : Bool) : UploadOut :=
  let v := sendSettingsValidate portName planIndex current sampleRate
    duration minTemp maxTemp
  match v.error with
  | some msg => ⟨s, some msg, false⟩
  | none =>
    let s0 := { s with progress := 0 }
    if ¬openOk then
      let c := cleanupAfterError "Failed to open port - check connection" s0
      ⟨c.state, c.errorEvent, false⟩
    else
      let s1 := { s0 with portOpen := true, connected := true }
      if ¬sendOk then
        let c := cleanupAfterError "Failed to send configuration" s1
        ⟨c.state, c.errorEvent, false⟩
      else
        ⟨{ s1 with portOpen := false, connected := false, progress := 100 },
          none, true⟩

lemma receiveFilesLoop_failure (s : MgrState) :
    ∀ (pairs : List (List Nat × Bool)) (i : Nat),
      (receiveFilesLoop s i pairs).success = false →
      (receiveFilesLoop s i pairs).state.portOpen = false
      ∧ (receiveFilesLoop s i pairs).state.connected = false
      ∧ (receiveFilesLoop s i pairs).state.progress = 0
      ∧ (receiveFilesLoop s i pairs).errorEvent.isSome = true
      ∧ (receiveFilesLoop s i pairs).savedFiles =
          (pairs.takeWhile (fun p => p.2)).map (fun p => p.1) := by
  intro pairs
  induction pairs with
  | nil => intro i h; simp [receiveFilesLoop] at h
  | cons pr rest ih =>
    intro i h
    match pr with
    | (name, ok) =>
      by_cases hok : ok = true
      · subst hok
        have hr := ih (i + 1) (by simpa [receiveFilesLoop] using h)
        simp [receiveFilesLoop, List.takeWhile, hr.1, hr.2.1, hr.2.2.1,
          hr.2.2.2.1, hr.2.2.2.2]
      · have hok2 : ok = false := by
          cases ok
          · rfl
          · exact absurd rfl hok
        subst hok2
        simp [receiveFilesLoop, cleanupAfterError, List.takeWhile]
        by_cases hp : s.portOpen <;> simp [hp]

lemma cleanupAfterError_spec (msg : String) (s : MgrState) :
    (cleanupAfterError msg s).state.portOpen = false
    ∧ (cleanupAfterError msg s).state.connected = false
    ∧ (cleanupAfterError msg s).state.progress = 0
    ∧ (cleanupAfterError msg s).errorEvent = some msg := by
  by_cases hp : s.portOpen <;> simp [cleanupAfterError, hp]

/-- C6: whenever a step of a download or an upload fails, the orchestrator
runs the uniform cleanup: the transport port is closed if open, the
connected flag is cleared, the progress value is reset to 0, and an error
event carrying a message is emitted; the files saved to disk before the
failing step (the accepted prefix of the per-file outcomes) are exactly the
ones reported saved — none is deleted. -/
theorem failure_runs_uniform_cleanup :
    (∀ msg s, (cleanupAfterError msg s).state.portOpen = false
      ∧ (cleanupAfterError msg s).state.connected = false
      ∧ (cleanupAfterError msg s).state.progress = 0
      ∧ (cleanupAfterError msg s).errorEvent = some msg)
    ∧ (∀ s i pairs, (receiveFilesLoop s i pairs).success = false →
        (receiveFilesLoop s i pairs).state.portOpen = false
        ∧ (receiveFilesLoop s i pairs).state.connected = false
        ∧ (receiveFilesLoop s i pairs).state.progress = 0
        ∧ (receiveFilesLoop s i pairs).errorEvent.isSome = true
        ∧ (receiveFilesLoop s i pairs).savedFiles =
            (pairs.takeWhile (fun p => p.2)).map (fun p => p.1))
    ∧ (∀ s hsOk fileList fileResults,
        (doReceiveOperation s hsOk fileList fileResults).success = false →
        (doReceiveOperation s hsOk fileList fileResults).state.portOpen = false
        ∧ (doReceiveOperation s hsOk fileList fileResults).state.connected = false
        ∧ (doReceiveOperation s hsOk fileList fileResults).state.progress = 0
        ∧ (doReceiveOperation s hsOk fileList fileResults).errorEvent.isSome = true)
    ∧ (∀ s portName planIndex current sampleRate duration minTemp maxTemp,
        (sendSettingsValidate portName planIndex current sampleRate duration
          minTemp maxTemp).error = none →
        (sendSettingsOp s portName planIndex current sampleRate duration
          minTemp maxTemp true false).state.portOpen = false
        ∧ (sendSettingsOp s portName planIndex current sampleRate duration
            minTemp maxTemp true false).state.connected = false
        ∧ (sendSettingsOp s portName planIndex current sampleRate duration
            minTemp maxTemp true false).state.progress = 0
        ∧ (sendSettingsOp s portName planIndex current sampleRate duration
            minTemp maxTemp true false).errorEvent.isSome = true) := by
  refine ⟨cleanupAfterError_spec,
    fun s i pairs => receiveFilesLoop_failure s pairs i, ?_, ?_⟩
  · intro s hsOk fileList fileResults h
    by_cases hhs : hsOk = true
    · subst hhs
      by_cases hfl : fileList.isEmpty = true
      · have hc := cleanupAfterError_spec
          "No files to receive or device disconnected" s
        simp [doReceiveOperation, hfl, hc.1, hc.2.1, hc.2.2.1, hc.2.2.2]
      · have h2 : (receiveFilesLoop s 0 (fileList.zip fileResults)).success
            = false := by
          simpa [doReceiveOperation, hfl] using h
        have hr := receiveFilesLoop_failure s (fileList.zip fileResults) 0 h2
        simp [doReceiveOperation, hfl, hr.1, hr.2.1, hr.2.2.1, hr.2.2.2.1]
    · have hhs2 : hsOk = false := by
        cases hsOk
        · rfl
        · exact absurd rfl hhs
      subst hhs2
      have hc := cleanupAfterError_spec "Timeout - no response from device" s
      simp [doReceiveOperation, hc.1, hc.2.1, hc.2.2.1, hc.2.2.2]
  · intro s portName planIndex current sampleRate duration minTemp maxTemp herr
    have hc := cleanupAfterError_spec "Failed to send configuration"
      { s with progress := 0, portOpen := true, connected := true }
    simp [sendSettingsOp, herr, hc.1, hc.2.1, hc.2.2.1, hc.2.2.2]

/-- Witness: failure_runs_uniform_cleanup on a download whose third file
fails after two saved files, starting from a connected, open-port state
with progress 37: the port ends closed, disconnected, progress 0, an error
event is emitted, and the two files saved before the failure are the
reported saved files. -/
theorem failure_runs_uniform_cleanup_witness :
    (receiveFilesLoop ⟨true, 37, true⟩ 0
        [([65], true), ([66], true), ([67], false)]).state.portOpen = false
    ∧ (receiveFilesLoop ⟨true, 37, true⟩ 0
        [([65], true), ([66], true), ([67], false)]).state.connected = false
    ∧ (receiveFilesLoop ⟨true, 37, true⟩ 0
        [([65], true), ([66], true), ([67], false)]).state.progress = 0
    ∧ (receiveFilesLoop ⟨true, 37, true⟩ 0
        [([65], true), ([66], true), ([67], false)]).errorEvent.isSome = true
    ∧ (receiveFilesLoop ⟨true, 37, true⟩ 0
        [([65], true), ([66], true), ([67], false)]).savedFiles =
        (([([65], true), ([66], true), ([67], false)] :
          List (List Nat × Bool)).takeWhile (fun p => p.2)).map
            (fun p => p.1) :=
  failure_runs_uniform_cleanup.2.1 ⟨true, 37, true⟩ 0
    [([65], true), ([66], true), ([67], false)] (by decide)

/-- ASCII digit test used to recognise a %N substitution marker. -/
def isAsciiDigit (c : Char) : Bool :=
  '0' ≤ c && c ≤ '9'

/-- QString::arg over the configuration template: substitute the rendered
value for the first percent-digit marker.  In the source's template the
markers %1..%5 occur in ascending order, so the lowest-numbered marker that
QString::arg replaces is always the first one encountered. -/
def replaceFirstMarker : List Char → List Char → List Char
  | [], _ => []
  | c :: rest, v =>
    if c = '%' then
      match rest with
      | d :: rest2 =>
        if isAsciiDigit d then v ++ rest2
        else c :: replaceFirstMarker rest v
      | [] => [c]
    else c :: replaceFirstMarker rest v

/-- One QString::arg application at the string level. -/
def qarg (s : String) (v : String) : String :=
  ⟨replaceFirstMarker s.data v.data⟩

/-- The format template of DeviceProtocol::sendConfigFile. -/
def configTemplate : String :=
  "current,sample rate,duration,min temp,max temp\n%1,%2,%3,%4,%5"

/-- The CSV content built by DeviceProtocol::sendConfigFile:
the template with the five integers substituted by chained .arg calls in
the order current, sampleRate, duration, minTemp, maxTemp. -/
def configCsv (current sampleRate duration minTemp maxTemp : Int) : String :=
  qarg (qarg (qarg (qarg (qarg configTemplate (toString current))
    (toString sampleRate)) (toString duration)) (toString minTemp))
    (toString maxTemp)

lemma replaceFirstMarker_cons_ne (c : Char) (hc : c ≠ '%')
    (rest v : List Char) :
    replaceFirstMarker (c :: rest) v = c :: replaceFirstMarker rest v := by
  simp [replaceFirstMarker, hc]

lemma replaceFirstMarker_hit (d : Char) (hd : isAsciiDigit d = true)
    (rest v : List Char) :
    replaceFirstMarker ('%' :: d :: rest) v = v ++ rest := by
  simp [replaceFirstMarker, hd]

lemma replaceFirstMarker_append (a b v : List Char) (ha : '%' ∉ a) :
    replaceFirstMarker (a ++ b) v = a ++ replaceFirstMarker b v := by
  induction a with
  | nil => simp
  | cons c a2 ih =>
    have hc : c ≠ '%' := by
      intro h
      exact ha (by rw [← h] at *; exact List.mem_cons_self c a2)
    have ha2 : '%' ∉ a2 := fun h => ha (List.mem_cons_of_mem c h)
    rw [List.cons_append, replaceFirstMarker_cons_ne c hc, ih ha2,
      List.cons_append]

lemma replFM_skip (a : List Char) (ha : '%' ∉ a) (d : Char)
    (hd : isAsciiDigit d = true) (rest v : List Char) :
    replaceFirstMarker (a ++ '%' :: d :: rest) v = a ++ v ++ rest := by
  rw [replaceFirstMarker_append a _ v ha, replaceFirstMarker_hit d hd,
    ← List.append_assoc]

lemma pct_not_mem_append (a b : List Char) (ha : '%' ∉ a) (hb : '%' ∉ b) :
    '%' ∉ a ++ b := by
  intro h
  rcases List.mem_append.mp h with h | h
  · exact ha h
  · exact hb h

/-- C9: for planIndex 2, current 250, sampleRate 1, duration 3, minTemp -20,
maxTemp 30, the CSV content built by sendConfigFile is exactly
"current,sample rate,duration,min temp,max temp" then a newline then
"250,1,3,-20,30"; and in general the second CSV line is the five input
values rendered and joined by commas in the order current, sampleRate,
duration, minTemp, maxTemp (the rendered integers never contain a percent
character, stated here as hypotheses). -/
theorem config_csv_payload (current sampleRate duration minTemp maxTemp : Int)
    (h1 : '%' ∉ (toString current).data)
    (h2 : '%' ∉ (toString sampleRate).data)
    (h3 : '%' ∉ (toString duration).data)
    (h4 : '%' ∉ (toString minTemp).data) :
    configCsv 250 1 3 (-20) 30 =
      "current,sample rate,duration,min temp,max temp\n250,1,3,-20,30"
    ∧ configCsv current sampleRate duration minTemp maxTemp =
      "current,sample rate,duration,min temp,max temp\n" ++ toString current
        ++ "," ++ toString sampleRate ++ "," ++ toString duration ++ ","
        ++ toString minTemp ++ "," ++ toString maxTemp := by
  constructor
  · decide
  · have m1 : ('%' : Char) ∉
        "current,sample rate,duration,min temp,max temp\n".data := by decide
    have mc : ('%' : Char) ∉ [','] := by decide
    have a2 := pct_not_mem_append _ _ (pct_not_mem_append _ _ m1 h1) mc
    have a3 := pct_not_mem_append _ _ (pct_not_mem_append _ _ a2 h2) mc
    have a4 := pct_not_mem_append _ _ (pct_not_mem_append _ _ a3 h3) mc
    have a5 := pct_not_mem_append _ _ (pct_not_mem_append _ _ a4 h4) mc
    have e1 : replaceFirstMarker configTemplate.data (toString current).data =
        ("current,sample rate,duration,min temp,max temp\n".data
          ++ (toString current).data) ++ ",%2,%3,%4,%5".data :=
      replFM_skip "current,sample rate,duration,min temp,max temp\n".data m1
        '1' (by decide) ",%2,%3,%4,%5".data (toString current).data
    have e2 : replaceFirstMarker
        (("current,sample rate,duration,min temp,max temp\n".data
          ++ (toString current).data) ++ ",%2,%3,%4,%5".data)
        (toString sampleRate).data =
        (((("current,sample rate,duration,min temp,max temp\n".data
          ++ (toString current).data) ++ [','])
          ++ (toString sampleRate).data)) ++ ",%3,%4,%5".data := by
      rw [show (",%2,%3,%4,%5" : String).data =
          ',' :: '%' :: '2' :: ",%3,%4,%5".data from rfl, List.append_cons]
      exact replFM_skip _ a2 '2' (by decide) _ _
    have e3 : replaceFirstMarker
        ((((("current,sample rate,duration,min temp,max temp\n".data
          ++ (toString current).data) ++ [','])
          ++ (toString sampleRate).data)) ++ ",%3,%4,%5".data)
        (toString duration).data =
        (((((("current,sample rate,duration,min temp,max temp\n".data
          ++ (toString current).data) ++ [','])
          ++ (toString sampleRate).data) ++ [','])
          ++ (toString duration).data)) ++ ",%4,%5".data := by
      rw [show (",%3,%4,%5" : String).data =
          ',' :: '%' :: '3' :: ",%4,%5".data from rfl, List.append_cons]
      exact replFM_skip _ a3 '3' (by decide) _ _
    have e4 : replaceFirstMarker
        ((((((("current,sample rate,duration,min temp,max temp\n".data
          ++ (toString current).data) ++ [','])
          ++ (toString sampleRate).data) ++ [','])
          ++ (toString duration).data)) ++ ",%4,%5".data)
        (toString minTemp).data =
        (((((((("current,sample rate,duration,min temp,max temp\n".data
          ++ (toString current).data) ++ [','])
          ++ (toString sampleRate).data) ++ [','])
          ++ (toString duration).data) ++ [','])
          ++ (toString minTemp).data)) ++ ",%5".data := by
      rw [show (",%4,%5" : String).data =
          ',' :: '%' :: '4' :: ",%5".data from rfl, List.append_cons]
      exact replFM_skip _ a4 '4' (by decide) _ _
    have e5 : replaceFirstMarker
        ((((((((("current,sample rate,duration,min temp,max temp\n".data
          ++ (toString current).data) ++ [','])
          ++ (toString sampleRate).data) ++ [','])
          ++ (toString duration).data) ++ [','])
          ++ (toString minTemp).data)) ++ ",%5".data)
        (toString maxTemp).data =
        (((((((((("current,sample rate,duration,min temp,max temp\n".data
          ++ (toString current).data) ++ [','])
          ++ (toString sampleRate).data) ++ [','])
          ++ (toString duration).data) ++ [','])
          ++ (toString minTemp).data) ++ [','])
          ++ (toString maxTemp).data)) := by
      rw [show (",%5" : String).data = ',' :: '%' :: '5' :: ([] : List Char)
          from rfl, List.append_cons]
      simpa using replFM_skip _ a5 '5' (by decide) [] (toString maxTemp).data
    have hdata : replaceFirstMarker (replaceFirstMarker (replaceFirstMarker
        (replaceFirstMarker (replaceFirstMarker configTemplate.data
          (toString current).data) (toString sampleRate).data)
        (toString duration).data) (toString minTemp).data)
        (toString maxTemp).data =
        (((((((("current,sample rate,duration,min temp,max temp\n".data
          ++ (toString current).data) ++ [','])
          ++ (toString sampleRate).data) ++ [','])
          ++ (toString duration).data) ++ [','])
          ++ (toString minTemp).data) ++ [','])
          ++ (toString maxTemp).data := by
      rw [e1, e2, e3, e4, e5]
    exact congrArg String.mk hdata

/-- Witness: config_csv_payload at the spec's scenario values
(plan 2 carries no payload field; the CSV row is 250,1,3,-20,30). -/
theorem config_csv_payload_witness :
    configCsv 250 1 3 (-20) 30 =
      "current,sample rate,duration,min temp,max temp\n250,1,3,-20,30"
    ∧ configCsv 250 1 3 (-20) 30 =
      "current,sample rate,duration,min temp,max temp\n" ++ toString (250 : Int)
        ++ "," ++ toString (1 : Int) ++ "," ++ toString (3 : Int) ++ ","
        ++ toString (-20 : Int) ++ "," ++ toString (30 : Int) :=
  config_csv_payload 250 1 3 (-20) 30 (by decide) (by decide) (by decide)
    (by decide)

end BatteryTester
